import Mathlib

/-!
Verification development for the pregnancy-nutrition tracking backend.

The Python services under `backend/app` are shallowly embedded here:
* string helpers model Python `str.lower`, `str.strip`, substring `in`,
  `str.split()` word counting, and digit detection (ASCII behaviour);
* floats are modelled as rationals (`ℚ`), datetimes as integer seconds,
  calendar dates as natural numbers;
* dictionaries are modelled as association lists in iteration order;
* external HTTP calls are modelled by passing their results as parameters.
-/

namespace Backend

/-- Python `str.lower()` (ASCII case folding, as in the code's inputs). -/
def pyLower (s : String) : String := ⟨s.data.map Char.toLower⟩

/-- Python `str.strip()`: drop leading and trailing whitespace. -/
def pyStrip (s : String) : String :=
  ⟨((s.data.dropWhile Char.isWhitespace).reverse.dropWhile Char.isWhitespace).reverse⟩

/-- Contiguous-sublist test on character lists (Python `needle in hay`). -/
def subChars : List Char → List Char → Bool
  | n, [] => n.isEmpty
  | n, c :: cs => n.isPrefixOf (c :: cs) || subChars n cs

/-- Python `needle in hay` for strings. -/
def pySubstr (needle hay : String) : Bool := subChars needle.data hay.data

/-- Number of words of Python `s.split()` (split on whitespace runs). -/
def countWordsAux : List Char → Bool → Nat
  | [], _ => 0
  | c :: cs, inWord =>
    if c.isWhitespace then countWordsAux cs false
    else (if inWord then 0 else 1) + countWordsAux cs true

/-- `len(s.split())` in Python. -/
def countWords (s : String) : Nat := countWordsAux s.data false

/-- Python `any(char.isdigit() for char in s)`. -/
def hasDigit (s : String) : Bool := s.data.any Char.isDigit

/-!
## Nutrition calculator (`nutrition_calculator_service.py`)

`Food` carries the two columns the multiplier computation reads
(`serving_size`, `serving_unit`); floats become rationals.
-/

structure Food where
  serving_size : ℚ
  serving_unit : String

namespace NutritionCalculator

/-- `NutritionCalculatorService.UNIT_CONVERSIONS`: unit → grams factor.
`serving`/`servings` map to Python `None`, modelled by `none`. -/
def UNIT_CONVERSIONS : List (String × Option ℚ) :=
  [("g", some 1), ("gram", some 1), ("grams", some 1),
   ("ml", some 1), ("milliliter", some 1), ("milliliters", some 1),
   ("serving", none), ("servings", none),
   ("cup", some 240), ("cups", some 240),
   ("tbsp", some 15), ("tablespoon", some 15), ("tablespoons", some 15),
   ("tsp", some 5), ("teaspoon", some 5), ("teaspoons", some 5),
   ("oz", some (2835/100)), ("ounce", some (2835/100)), ("ounces", some (2835/100)),
   ("lb", some (45359/100)), ("pound", some (45359/100)), ("pounds", some (45359/100))]

/-- `convert_to_base_units(serving_size, serving_unit, food)`.
The `serving`/`servings` units are special-cased before the table lookup,
so the table's `none` entries are unreachable there; the inner `getD 1`
only discharges that dead branch. -/
def convert_to_base_units (serving_size : ℚ) (serving_unit : String) (food : Food) : ℚ :=
  let unit_lower := pyStrip (pyLower serving_unit)
  if unit_lower = "serving" ∨ unit_lower = "servings" then
    serving_size * food.serving_size
  else
    serving_size * (((UNIT_CONVERSIONS.lookup unit_lower).getD (some 1)).getD 1)

/-- `calculate_nutrition_multiplier(food, user_serving_size, user_serving_unit, quantity)`. -/
def calculate_nutrition_multiplier (food : Food) (user_serving_size : ℚ)
    (user_serving_unit : String) (quantity : ℚ) : ℚ :=
  let user_serving_grams := convert_to_base_units user_serving_size user_serving_unit food
  let food_base_grams :=
    if pyLower food.serving_unit = "g" ∨ pyLower food.serving_unit = "gram" ∨
        pyLower food.serving_unit = "grams" then
      food.serving_size
    else
      convert_to_base_units food.serving_size food.serving_unit food
  let food_base_grams' := if food_base_grams = 0 then 100 else food_base_grams
  (user_serving_grams / food_base_grams') * quantity

/-- The multiplier formula as the specification words it: user serving
converted to grams, divided by the food's base serving converted to grams
(with 100 g substituted for a zero denominator), times quantity. -/
def specMultiplier (food : Food) (user_serving_size : ℚ)
    (user_serving_unit : String) (quantity : ℚ) : ℚ :=
  let userGrams := convert_to_base_units user_serving_size user_serving_unit food
  let baseGrams := convert_to_base_units food.serving_size food.serving_unit food
  (userGrams / (if baseGrams = 0 then 100 else baseGrams)) * quantity

end NutritionCalculator

end Backend

namespace Backend.NutritionCalculator

lemma convert_gram_family (food : Food)
    (h : pyLower food.serving_unit = "g" ∨ pyLower food.serving_unit = "gram" ∨
      pyLower food.serving_unit = "grams") :
    convert_to_base_units food.serving_size food.serving_unit food = food.serving_size := by
  unfold convert_to_base_units
  rcases h with h | h | h
  · rw [h, show pyStrip "g" = "g" from rfl, if_neg (by decide)]
    exact mul_one _
  · rw [h, show pyStrip "gram" = "gram" from rfl, if_neg (by decide)]
    exact mul_one _
  · rw [h, show pyStrip "grams" = "grams" from rfl, if_neg (by decide)]
    exact mul_one _

/-- C1: for every food and user serving (size, unit, quantity), the
multiplier returned by `calculate_nutrition_multiplier` equals the user
serving converted to grams, divided by the food's base serving converted to
grams, times the quantity; and whenever the food's base serving resolves to
0 grams, 100 grams is substituted as the denominator, so the multiplier is
always well-defined. -/
theorem multiplier_matches_spec_with_zero_guard (food : Food) (s : ℚ) (u : String) (q : ℚ) :
    calculate_nutrition_multiplier food s u q = specMultiplier food s u q ∧
    (convert_to_base_units food.serving_size food.serving_unit food = 0 →
      calculate_nutrition_multiplier food s u q =
        (convert_to_base_units s u food / 100) * q) := by
  have hmain : calculate_nutrition_multiplier food s u q = specMultiplier food s u q := by
    simp only [calculate_nutrition_multiplier, specMultiplier]
    by_cases h : pyLower food.serving_unit = "g" ∨ pyLower food.serving_unit = "gram" ∨
        pyLower food.serving_unit = "grams"
    · rw [if_pos h, convert_gram_family food h]
    · rw [if_neg h]
  refine ⟨hmain, fun h0 => ?_⟩
  rw [hmain]
  simp only [specMultiplier]
  rw [h0, if_pos rfl]

/-- Witness for C1: a food whose base serving resolves to 0 grams
(serving_size 0, unit "g"); logging 50 g twice yields multiplier
(50 / 100) * 2 = 1 through the division-by-zero guard. -/
theorem multiplier_matches_spec_with_zero_guard_witness :
    convert_to_base_units (Food.mk 0 "g").serving_size (Food.mk 0 "g").serving_unit
      (Food.mk 0 "g") = 0 ∧
    calculate_nutrition_multiplier (Food.mk 0 "g") 50 "g" 2 = 1 := by
  have h0 : convert_to_base_units (Food.mk 0 "g").serving_size
      (Food.mk 0 "g").serving_unit (Food.mk 0 "g") = 0 := by
    show (0 : ℚ) * 1 = 0
    norm_num
  refine ⟨h0, ?_⟩
  rw [(multiplier_matches_spec_with_zero_guard (Food.mk 0 "g") 50 "g" 2).2 h0,
    show convert_to_base_units 50 "g" (Food.mk 0 "g") = 50 * 1 from rfl]
  norm_num

/-- C10: for every serving-unit string whose lowercased/stripped form is not
a key of the fixed unit-conversion table, `convert_to_base_units` silently
applies a conversion factor of 1.0 — the unit is treated as grams; the
function is total, so no unit is ever rejected. -/
theorem unrecognized_unit_treated_as_grams (s : ℚ) (u : String) (food : Food)
    (h : UNIT_CONVERSIONS.lookup (pyStrip (pyLower u)) = none) :
    convert_to_base_units s u food = s := by
  have hserving : ¬(pyStrip (pyLower u) = "serving" ∨ pyStrip (pyLower u) = "servings") := by
    rintro (h1 | h1) <;> rw [h1] at h <;> exact absurd h (by decide)
  simp only [convert_to_base_units]
  rw [if_neg hserving, h]
  exact mul_one _

/-- Witness for C10: the unit "slice" is absent from the conversion table,
and 3 "slice" converts to 3 grams. -/
theorem unrecognized_unit_treated_as_grams_witness :
    UNIT_CONVERSIONS.lookup (pyStrip (pyLower "slice")) = none ∧
    convert_to_base_units 3 "slice" (Food.mk 100 "g") = 3 :=
  ⟨by decide, unrecognized_unit_treated_as_grams 3 "slice" (Food.mk 100 "g") (by decide)⟩

end Backend.NutritionCalculator

/-!
## Pregnancy safety service (`pregnancy_safety_service.py`)

The JSON rule table is not part of the sources, so the lookup and
aggregation functions are parameterised by the table, modelled as an
association list in dict iteration (insertion) order.
-/

namespace Backend.PregnancySafety

open Backend

structure SafetyRule where
  status : String
  notes : String
deriving DecidableEq

abbrev Rules := List (String × SafetyRule)

/-- The fallback returned for unknown ingredients. -/
def defaultRule : SafetyRule :=
  ⟨"limited", "Safety not reviewed yet - consume with caution during pregnancy"⟩

/-- The partial-match test of the rule loop:
`rule_key in ingredient_key or ingredient_key in rule_key`. -/
def partialMatch (rule_key ingredient_key : String) : Bool :=
  pySubstr rule_key ingredient_key || pySubstr ingredient_key rule_key

/-- `PregnancySafetyService.get_safety_status(ingredient_name)`. -/
def get_safety_status (rules : Rules) (ingredient_name : String) : SafetyRule :=
  let ingredient_key := pyStrip (pyLower ingredient_name)
  match rules.lookup ingredient_key with
  | some rule => rule
  | none =>
    match rules.find? (fun p => partialMatch p.1 ingredient_key) with
    | some p => p.2
    | none => defaultRule

/-- `check_ingredient_safety` (the Spoonacular safety argument is unused in
the code, so it is omitted). -/
def check_ingredient_safety (rules : Rules) (ingredient_name : String) : String × String :=
  ((get_safety_status rules ingredient_name).status,
   (get_safety_status rules ingredient_name).notes)

structure IngredientDetail where
  name : String
  safety_status : String
  safety_notes : String
deriving DecidableEq

/-- Status the per-ingredient lookup assigns to `i`. -/
def statusOf (rules : Rules) (i : String) : String := (get_safety_status rules i).status

/-- One iteration of the `check_food_safety` loop; the accumulator is
(ingredient_results, overall_status, avoid_ingredients, limited_ingredients). -/
def foodSafetyStep (rules : Rules)
    (acc : List IngredientDetail × String × List String × List String)
    (ingredient : String) : List IngredientDetail × String × List String × List String :=
  match acc with
  | (results, overall, avoidL, limitedL) =>
    let st := (check_ingredient_safety rules ingredient).1
    let nt := (check_ingredient_safety rules ingredient).2
    let results := results ++ [⟨ingredient, st, nt⟩]
    if st = "avoid" then
      (results, "avoid", avoidL ++ [ingredient], limitedL)
    else if st = "limited" ∧ overall ≠ "avoid" then
      (results, "limited", avoidL, limitedL ++ [ingredient])
    else
      (results, overall, avoidL, limitedL)

/-- `check_food_safety(ingredients)`: returns
(overall_safety_status, overall_notes, ingredient_details). -/
def check_food_safety (rules : Rules) (ingredients : List String) :
    String × String × List IngredientDetail :=
  let st := ingredients.foldl (foodSafetyStep rules) ([], "safe", [], [])
  let overall_notes :=
    if st.2.2.1 ≠ [] then
      "Avoid during pregnancy due to: " ++ String.intercalate ", " st.2.2.1
    else if st.2.2.2 ≠ [] then
      "Consume in moderation due to: " ++ String.intercalate ", " st.2.2.2
    else
      "Generally safe for consumption during pregnancy"
  (st.2.1, overall_notes, st.1)

end Backend.PregnancySafety

namespace Backend.PregnancySafety

lemma find_first {α : Type} (p : α → Bool) (pre : List α) (x : α) (suf : List α)
    (hpre : ∀ a ∈ pre, p a = false) (hx : p x = true) :
    (pre ++ x :: suf).find? p = some x := by
  induction pre with
  | nil => simp [List.find?_cons_of_pos, hx]
  | cons a as ih =>
    have ha : p a = false := hpre a (by simp)
    rw [List.cons_append, List.find?_cons_of_neg _ (by simp [ha])]
    exact ih (fun b hb => hpre b (by simp [hb]))

/-- C2: the single-ingredient lookup proceeds exact-match first on the
lowercased, trimmed name; failing that, the first rule (in table iteration
order) whose key is a substring of the query or vice versa wins; and a name
matching no rule at all yields the "limited" / not-yet-reviewed default,
never "safe". -/
theorem safety_lookup_order (rules : Rules) (name : String) :
    (∀ r, rules.lookup (pyStrip (pyLower name)) = some r →
      get_safety_status rules name = r) ∧
    (rules.lookup (pyStrip (pyLower name)) = none →
      ∀ pre k r suf, rules = pre ++ (k, r) :: suf →
        (∀ p ∈ pre, partialMatch p.1 (pyStrip (pyLower name)) = false) →
        partialMatch k (pyStrip (pyLower name)) = true →
        get_safety_status rules name = r) ∧
    (rules.lookup (pyStrip (pyLower name)) = none →
      (∀ p ∈ rules, partialMatch p.1 (pyStrip (pyLower name)) = false) →
      get_safety_status rules name = defaultRule ∧
        (get_safety_status rules name).status = "limited" ∧
        (get_safety_status rules name).status ≠ "safe") := by
  refine ⟨?_, ?_, ?_⟩
  · intro r hr
    simp only [get_safety_status]
    rw [hr]
  · intro hnone pre k r suf hsplit hpre hk
    simp only [get_safety_status]
    rw [hnone, hsplit, find_first (fun p => partialMatch p.1 (pyStrip (pyLower name)))
      pre (k, r) suf hpre hk]
  · intro hnone hall
    have hfind : rules.find? (fun p => partialMatch p.1 (pyStrip (pyLower name))) = none :=
      List.find?_eq_none.mpr (fun x hx => by simp [hall x hx])
    simp only [get_safety_status]
    rw [hnone, hfind]
    exact ⟨rfl, rfl, by decide⟩

/-- Witness for C2: with the table
[("salmon", avoid), ("fish", limited)], the query "fish stew" has no exact
match, skips "salmon", and takes the first partial match "fish"; the
unknown query "xyzzy-food-9000" gets the "limited" default. -/
theorem safety_lookup_order_witness :
    get_safety_status [("salmon", SafetyRule.mk "avoid" "n1"),
        ("fish", SafetyRule.mk "limited" "n2")] "fish stew" =
      SafetyRule.mk "limited" "n2" ∧
    (get_safety_status [("salmon", SafetyRule.mk "avoid" "n1"),
        ("fish", SafetyRule.mk "limited" "n2")] "xyzzy-food-9000").status = "limited" := by
  constructor
  · exact (safety_lookup_order _ "fish stew").2.1 (by decide)
      [("salmon", SafetyRule.mk "avoid" "n1")] "fish" (SafetyRule.mk "limited" "n2") []
      rfl (by decide) (by decide)
  · exact ((safety_lookup_order _ "xyzzy-food-9000").2.2 (by decide) (by decide)).2.1

lemma fold_avoid_list (rules : Rules) (l : List String) (res : List IngredientDetail)
    (ov : String) (av lim : List String) :
    (l.foldl (foodSafetyStep rules) (res, ov, av, lim)).2.2.1 =
      av ++ l.filter (fun i => decide (statusOf rules i = "avoid")) := by
  induction l generalizing res ov av lim with
  | nil => simp
  | cons i t ih =>
    simp only [List.foldl_cons, List.filter_cons, foodSafetyStep, check_ingredient_safety]
    by_cases h1 : (get_safety_status rules i).status = "avoid"
    · rw [if_pos h1, ih]
      simp [statusOf, h1]
    · rw [if_neg h1]
      by_cases h2 : (get_safety_status rules i).status = "limited" ∧ ¬ ov = "avoid"
      · rw [if_pos h2, ih]
        simp [statusOf, h1]
      · rw [if_neg h2, ih]
        simp [statusOf, h1]

lemma fold_overall (rules : Rules) (l : List String) (res : List IngredientDetail)
    (ov : String) (av lim : List String) :
    (l.foldl (foodSafetyStep rules) (res, ov, av, lim)).2.1 =
      if l.any (fun i => decide (statusOf rules i = "avoid")) then "avoid"
      else if l.any (fun i => decide (statusOf rules i = "limited")) then
        (if ov = "avoid" then "avoid" else "limited")
      else ov := by
  induction l generalizing res ov av lim with
  | nil => simp
  | cons i t ih =>
    simp only [List.foldl_cons, List.any_cons, foodSafetyStep, check_ingredient_safety]
    by_cases h1 : (get_safety_status rules i).status = "avoid"
    · rw [if_pos h1, ih]
      simp [statusOf, h1]
    · rw [if_neg h1]
      by_cases h2 : (get_safety_status rules i).status = "limited" ∧ ¬ ov = "avoid"
      · rw [if_pos h2, ih]
        simp [statusOf, h1, h2.1, h2.2]

      · rw [if_neg h2, ih]
        by_cases h3 : (get_safety_status rules i).status = "limited"
        · have hov : ov = "avoid" := by
            by_contra hc
            exact h2 ⟨h3, hc⟩
          simp [statusOf, h1, h3, hov]
        · simp [statusOf, h1, h3]

lemma fold_limited_list (rules : Rules) (l : List String) (res : List IngredientDetail)
    (ov : String) (av lim : List String)
    (hl : ∀ i ∈ l, statusOf rules i ≠ "avoid") (hov : ov ≠ "avoid") :
    (l.foldl (foodSafetyStep rules) (res, ov, av, lim)).2.2.2 =
      lim ++ l.filter (fun i => decide (statusOf rules i = "limited")) := by
  induction l generalizing res ov av lim with
  | nil => simp
  | cons i t ih =>
    have h1 : ¬ (get_safety_status rules i).status = "avoid" := hl i (by simp)
    have hl' : ∀ j ∈ t, statusOf rules j ≠ "avoid" := fun j hj => hl j (by simp [hj])
    simp only [List.foldl_cons, List.filter_cons, foodSafetyStep, check_ingredient_safety]
    rw [if_neg h1]
    by_cases h3 : (get_safety_status rules i).status = "limited"
    · rw [if_pos ⟨h3, hov⟩, ih _ _ _ _ hl' (by decide)]
      simp [statusOf, h3]
    · rw [if_neg (fun hc => h3 hc.1), ih _ _ _ _ hl' hov]
      simp [statusOf, h3]

lemma overall_closed (rules : Rules) (ings : List String) :
    (check_food_safety rules ings).1 =
      if ings.any (fun i => decide (statusOf rules i = "avoid")) then "avoid"
      else if ings.any (fun i => decide (statusOf rules i = "limited")) then "limited"
      else "safe" := by
  simp only [check_food_safety]
  rw [fold_overall]
  simp

lemma perm_any {α : Type} {l₁ l₂ : List α} (h : l₁.Perm l₂) (p : α → Bool) :
    l₁.any p = l₂.any p := by
  cases hb : l₂.any p with
  | true =>
    obtain ⟨x, hx, hpx⟩ := List.any_eq_true.mp hb
    exact List.any_eq_true.mpr ⟨x, h.mem_iff.mpr hx, hpx⟩
  | false =>
    by_contra hc
    obtain ⟨x, hx, hpx⟩ := List.any_eq_true.mp (eq_true_of_ne_false hc)
    have h2 : l₂.any p = true := List.any_eq_true.mpr ⟨x, h.mem_iff.mp hx, hpx⟩
    rw [hb] at h2
    exact Bool.false_ne_true h2

lemma ex_iff_any (rules : Rules) (l : List String) (s : String) :
    (∃ i ∈ l, statusOf rules i = s) ↔
      l.any (fun i => decide (statusOf rules i = s)) = true := by
  simp [List.any_eq_true]

/-- C3: the aggregate verdict of `check_food_safety` is "avoid" iff some
ingredient maps to "avoid"; otherwise "limited" iff some ingredient maps to
"limited"; otherwise "safe"; the overall status is invariant under
permutation of the input list; and the overall notes enumerate the
offending ingredient names. -/
theorem check_food_safety_aggregate (rules : Rules) (ings : List String) :
    ((check_food_safety rules ings).1 = "avoid" ↔
      ∃ i ∈ ings, statusOf rules i = "avoid") ∧
    ((check_food_safety rules ings).1 = "limited" ↔
      (∀ i ∈ ings, statusOf rules i ≠ "avoid") ∧
        ∃ i ∈ ings, statusOf rules i = "limited") ∧
    ((check_food_safety rules ings).1 = "safe" ↔
      (∀ i ∈ ings, statusOf rules i ≠ "avoid") ∧
        (∀ i ∈ ings, statusOf rules i ≠ "limited")) ∧
    (∀ ings', ings'.Perm ings →
      (check_food_safety rules ings').1 = (check_food_safety rules ings).1) ∧
    ((∃ i ∈ ings, statusOf rules i = "avoid") →
      (check_food_safety rules ings).2.1 =
        "Avoid during pregnancy due to: " ++ String.intercalate ", "
          (ings.filter (fun i => decide (statusOf rules i = "avoid")))) ∧
    ((∀ i ∈ ings, statusOf rules i ≠ "avoid") →
      (∃ i ∈ ings, statusOf rules i = "limited") →
      (check_food_safety rules ings).2.1 =
        "Consume in moderation due to: " ++ String.intercalate ", "
          (ings.filter (fun i => decide (statusOf rules i = "limited")))) := by
  have hperm : ∀ ings', ings'.Perm ings →
      (check_food_safety rules ings').1 = (check_food_safety rules ings).1 := by
    intro ings' hp
    rw [overall_closed, overall_closed, perm_any hp, perm_any hp]
  have hnotesA : (∃ i ∈ ings, statusOf rules i = "avoid") →
      (check_food_safety rules ings).2.1 =
        "Avoid during pregnancy due to: " ++ String.intercalate ", "
          (ings.filter (fun i => decide (statusOf rules i = "avoid"))) := by
    rintro ⟨x, hx, hsx⟩
    have hne : ings.filter (fun i => decide (statusOf rules i = "avoid")) ≠ [] :=
      List.ne_nil_of_mem (List.mem_filter.mpr ⟨hx, by simp [hsx]⟩)
    simp only [check_food_safety]
    rw [fold_avoid_list]
    simp only [List.nil_append]
    rw [if_pos hne]
  have hnotesL : (∀ i ∈ ings, statusOf rules i ≠ "avoid") →
      (∃ i ∈ ings, statusOf rules i = "limited") →
      (check_food_safety rules ings).2.1 =
        "Consume in moderation due to: " ++ String.intercalate ", "
          (ings.filter (fun i => decide (statusOf rules i = "limited"))) := by
    rintro hall ⟨x, hx, hsx⟩
    have hnil : ings.filter (fun i => decide (statusOf rules i = "avoid")) = [] :=
      List.filter_eq_nil_iff.mpr (fun a ha => by simp [hall a ha])
    have hne : ings.filter (fun i => decide (statusOf rules i = "limited")) ≠ [] :=
      List.ne_nil_of_mem (List.mem_filter.mpr ⟨hx, by simp [hsx]⟩)
    simp only [check_food_safety]
    rw [fold_avoid_list, fold_limited_list rules ings _ _ _ _ hall (by decide)]
    simp only [List.nil_append]
    rw [if_neg (by simp [hnil]), if_pos hne]
  by_cases hA : ∃ i ∈ ings, statusOf rules i = "avoid"
  · have hAb := (ex_iff_any rules ings "avoid").mp hA
    have hov : (check_food_safety rules ings).1 = "avoid" := by
      rw [overall_closed, hAb]
      simp
    refine ⟨⟨fun _ => hA, fun _ => hov⟩, ⟨?_, ?_⟩, ⟨?_, ?_⟩, hperm, hnotesA, ?_⟩
    · intro hlim
      rw [hov] at hlim
      exact absurd hlim (by decide)
    · rintro ⟨hnoav, -⟩
      obtain ⟨x, hx, hsx⟩ := hA
      exact absurd hsx (hnoav x hx)
    · intro hsafe
      rw [hov] at hsafe
      exact absurd hsafe (by decide)
    · rintro ⟨hnoav, -⟩
      obtain ⟨x, hx, hsx⟩ := hA
      exact absurd hsx (hnoav x hx)
    · intro hnoav
      obtain ⟨x, hx, hsx⟩ := hA
      exact absurd hsx (hnoav x hx)
  · have hnoav : ∀ i ∈ ings, statusOf rules i ≠ "avoid" :=
      fun i hi hc => hA ⟨i, hi, hc⟩
    have hAb : ings.any (fun i => decide (statusOf rules i = "avoid")) = false :=
      Bool.eq_false_iff.mpr (fun h => hA ((ex_iff_any rules ings "avoid").mpr h))
    by_cases hL : ∃ i ∈ ings, statusOf rules i = "limited"
    · have hLb := (ex_iff_any rules ings "limited").mp hL
      have hov : (check_food_safety rules ings).1 = "limited" := by
        rw [overall_closed, hAb, hLb]
        simp
      refine ⟨⟨?_, ?_⟩, ⟨fun _ => ⟨hnoav, hL⟩, fun _ => hov⟩, ⟨?_, ?_⟩, hperm, ?_, hnotesL⟩
      · intro hav
        rw [hov] at hav
        exact absurd hav (by decide)
      · intro hex
        exact absurd hex hA
      · intro hsafe
        rw [hov] at hsafe
        exact absurd hsafe (by decide)
      · rintro ⟨-, hnolim⟩
        obtain ⟨x, hx, hsx⟩ := hL
        exact absurd hsx (hnolim x hx)
      · intro hex
        exact absurd hex hA
    · have hnolim : ∀ i ∈ ings, statusOf rules i ≠ "limited" :=
        fun i hi hc => hL ⟨i, hi, hc⟩
      have hLb : ings.any (fun i => decide (statusOf rules i = "limited")) = false :=
        Bool.eq_false_iff.mpr (fun h => hL ((ex_iff_any rules ings "limited").mpr h))
      have hov : (check_food_safety rules ings).1 = "safe" := by
        rw [overall_closed, hAb, hLb]
        simp
      refine ⟨⟨?_, ?_⟩, ⟨?_, ?_⟩, ⟨fun _ => ⟨hnoav, hnolim⟩, fun _ => hov⟩, hperm, ?_, ?_⟩
      · intro hav
        rw [hov] at hav
        exact absurd hav (by decide)
      · intro hex
        exact absurd hex hA
      · intro hlim
        rw [hov] at hlim
        exact absurd hlim (by decide)
      · rintro ⟨-, hex⟩
        exact absurd hex hL
      · intro hex
        exact absurd hex hA
      · intro _ hex
        exact absurd hex hL

/-- Witness for C3: with a table mapping "peanut butter" to "avoid",
`check_food_safety(["peanut butter", "water"])` yields overall status
"avoid", as does the reversed input list. -/
theorem check_food_safety_aggregate_witness :
    (check_food_safety [("peanut butter", SafetyRule.mk "avoid" "n")]
      ["peanut butter", "water"]).1 = "avoid" ∧
    (check_food_safety [("peanut butter", SafetyRule.mk "avoid" "n")]
      ["water", "peanut butter"]).1 = "avoid" := by
  have h1 := (check_food_safety_aggregate
    [("peanut butter", SafetyRule.mk "avoid" "n")] ["peanut butter", "water"]).1.mpr
    ⟨"peanut butter", by simp, by decide⟩
  have h2 := (check_food_safety_aggregate
    [("peanut butter", SafetyRule.mk "avoid" "n")] ["water", "peanut butter"]).2.2.2.1
    ["peanut butter", "water"] (List.Perm.swap "water" "peanut butter" [])
  exact ⟨h1, h2 ▸ h1⟩

end Backend.PregnancySafety

/-!
## Cache service duplicate merge (`cache_service.py`)

`FoodRec` carries the fields touched by `_merge_food_data` plus the two
external ids; nullable ORM columns become `Option`s. `cache_food_merge`
is `_merge_food_data` composed with the application loop in `cache_food`
(`setattr(existing, key, value)` for every merged key with a non-null
value), i.e. it returns the updated existing record.
-/

namespace Backend.CacheMerge

/-- Shape of one `micronutrients` JSONB entry value. -/
structure MicroVal where
  amount : ℚ
  unit : String
  percent_daily_value : Option ℚ
deriving DecidableEq

structure FoodRec where
  name : Option String
  brand : Option String
  description : Option String
  category : Option String
  serving_size : Option ℚ
  serving_unit : Option String
  calories : Option ℚ
  protein : Option ℚ
  carbs : Option ℚ
  fat : Option ℚ
  fiber : Option ℚ
  sugar : Option ℚ
  sodium : Option ℚ
  micronutrients : Option (List (String × MicroVal))
  ingredients : Option (List String)
  allergens : Option (List String)
  safety_status : Option String
  safety_notes : Option String
  spoonacular_id : Option String
  fdc_id : Option String

/-- A scalar merge field: the merged dict holds the new value exactly when
the existing one is null and the new one is not; otherwise the existing
value survives the application loop. Also models the external-id backfill
(`if new.id and not existing.id`, with Python truthiness as `isSome`). -/
def mergeScalar {α : Type} (e n : Option α) : Option α :=
  match e, n with
  | none, some v => some v
  | _, _ => e

/-- A list merge field (`ingredients`, `allergens`): new-over-null first,
otherwise `list(set(existing + new))`, modelled up to ordering by `dedup`
of the concatenation. -/
def mergeListField (e n : Option (List String)) : Option (List String) :=
  match e, n with
  | none, some nv => some nv
  | some ev, some nv => some ((ev ++ nv).dedup)
  | _, none => e

/-- Python `d = existing.copy(); d.update(new)` on association lists:
existing keys keep their position with new values substituted where the new
dict has the key; keys only in the new dict are appended. -/
def pyDictUpdate {V : Type} (e n : List (String × V)) : List (String × V) :=
  e.map (fun p => (p.1, ((n.lookup p.1).getD p.2))) ++
    n.filter (fun p => (e.lookup p.1).isNone)

/-- The `micronutrients` merge field. -/
def mergeMicro (e n : Option (List (String × MicroVal))) :
    Option (List (String × MicroVal)) :=
  match e, n with
  | none, some nv => some nv
  | some ev, some nv => some (pyDictUpdate ev nv)
  | _, none => e

/-- A safety merge field (`safety_status`, `safety_notes`): a non-null new
value always wins ("prefer more recent safety information"). -/
def mergeSafety (e n : Option String) : Option String :=
  match n with
  | some v => some v
  | none => e

/-- `_merge_food_data(existing, new)` followed by the `cache_food`
application loop: the resulting state of the existing record. -/
def cache_food_merge (e n : FoodRec) : FoodRec where
  name := mergeScalar e.name n.name
  brand := mergeScalar e.brand n.brand
  description := mergeScalar e.description n.description
  category := mergeScalar e.category n.category
  serving_size := mergeScalar e.serving_size n.serving_size
  serving_unit := mergeScalar e.serving_unit n.serving_unit
  calories := mergeScalar e.calories n.calories
  protein := mergeScalar e.protein n.protein
  carbs := mergeScalar e.carbs n.carbs
  fat := mergeScalar e.fat n.fat
  fiber := mergeScalar e.fiber n.fiber
  sugar := mergeScalar e.sugar n.sugar
  sodium := mergeScalar e.sodium n.sodium
  micronutrients := mergeMicro e.micronutrients n.micronutrients
  ingredients := mergeListField e.ingredients n.ingredients
  allergens := mergeListField e.allergens n.allergens
  safety_status := mergeSafety e.safety_status n.safety_status
  safety_notes := mergeSafety e.safety_notes n.safety_notes
  spoonacular_id := mergeScalar e.spoonacular_id n.spoonacular_id
  fdc_id := mergeScalar e.fdc_id n.fdc_id

lemma mergeScalar_isSome {α : Type} {e : Option α} (n : Option α) (h : e.isSome) :
    (mergeScalar e n).isSome := by
  cases e <;> cases n <;> simp_all [mergeScalar]

lemma mergeListField_isSome {e : Option (List String)} (n : Option (List String))
    (h : e.isSome) : (mergeListField e n).isSome := by
  cases e <;> cases n <;> simp_all [mergeListField]

lemma mergeMicro_isSome {e : Option (List (String × MicroVal))}
    (n : Option (List (String × MicroVal))) (h : e.isSome) : (mergeMicro e n).isSome := by
  cases e <;> cases n <;> simp_all [mergeMicro]

lemma mergeSafety_isSome {e : Option String} (n : Option String) (h : e.isSome) :
    (mergeSafety e n).isSome := by
  cases e <;> cases n <;> simp_all [mergeSafety]

lemma lookup_append {β : Type} (l₁ l₂ : List (String × β)) (k : String) :
    (l₁ ++ l₂).lookup k =
      match l₁.lookup k with
      | some v => some v
      | none => l₂.lookup k := by
  induction l₁ with
  | nil => rfl
  | cons p t ih =>
    cases hpk : (k == p.1) <;> simp [List.lookup, hpk, ih]

lemma lookup_map_update {V : Type} (e n : List (String × V)) (k : String) :
    (e.map (fun p => (p.1, ((n.lookup p.1).getD p.2)))).lookup k =
      match e.lookup k with
      | some v => some ((n.lookup k).getD v)
      | none => none := by
  induction e with
  | nil => rfl
  | cons p t ih =>
    cases hpk : (k == p.1) with
    | true =>
      have hk : k = p.1 := eq_of_beq hpk
      subst hk
      simp [List.lookup, hpk]
    | false =>
      simp [List.lookup, hpk, ih]

lemma lookup_filter_isNone {V : Type} (e n : List (String × V)) (k : String)
    (he : e.lookup k = none) :
    (n.filter (fun p => (e.lookup p.1).isNone)).lookup k = n.lookup k := by
  induction n with
  | nil => rfl
  | cons p t ih =>
    by_cases hpk : p.1 = k
    · subst hpk
      simp [List.filter_cons, he, List.lookup]
    · have hbeq : (k == p.1) = false :=
        beq_eq_false_iff_ne.mpr (fun hc => hpk hc.symm)
      cases hfil : (e.lookup p.1).isNone <;>
        simp [List.filter_cons, hfil, List.lookup, hbeq, ih]

lemma pyDictUpdate_lookup {V : Type} (e n : List (String × V)) (k : String) :
    (pyDictUpdate e n).lookup k =
      match n.lookup k with
      | some v => some v
      | none => e.lookup k := by
  unfold pyDictUpdate
  rw [lookup_append, lookup_map_update]
  cases he : e.lookup k with
  | some v =>
    cases hn : n.lookup k <;> simp [hn]
  | none =>
    rw [lookup_filter_isNone e n k he]
    cases hn : n.lookup k <;> simp [hn]

end Backend.CacheMerge

namespace Backend.CacheMerge

/-- C4: the duplicate merge never sets an existing non-null field to null
(every merge field included); a null new brand leaves the existing brand
untouched; `ingredients`/`allergens` become the duplicate-free union of
both lists; the micronutrient map is the existing map shallow-merged with
the new one (same-named new keys win, other existing keys preserved); and
a missing external id on the existing record is backfilled from the new
payload. -/
theorem merge_food_data_policy (e n : FoodRec) :
    ((e.name.isSome → (cache_food_merge e n).name.isSome) ∧
     (e.brand.isSome → (cache_food_merge e n).brand.isSome) ∧
     (e.description.isSome → (cache_food_merge e n).description.isSome) ∧
     (e.category.isSome → (cache_food_merge e n).category.isSome) ∧
     (e.serving_size.isSome → (cache_food_merge e n).serving_size.isSome) ∧
     (e.serving_unit.isSome → (cache_food_merge e n).serving_unit.isSome) ∧
     (e.calories.isSome → (cache_food_merge e n).calories.isSome) ∧
     (e.protein.isSome → (cache_food_merge e n).protein.isSome) ∧
     (e.carbs.isSome → (cache_food_merge e n).carbs.isSome) ∧
     (e.fat.isSome → (cache_food_merge e n).fat.isSome) ∧
     (e.fiber.isSome → (cache_food_merge e n).fiber.isSome) ∧
     (e.sugar.isSome → (cache_food_merge e n).sugar.isSome) ∧
     (e.sodium.isSome → (cache_food_merge e n).sodium.isSome) ∧
     (e.micronutrients.isSome → (cache_food_merge e n).micronutrients.isSome) ∧
     (e.ingredients.isSome → (cache_food_merge e n).ingredients.isSome) ∧
     (e.allergens.isSome → (cache_food_merge e n).allergens.isSome) ∧
     (e.safety_status.isSome → (cache_food_merge e n).safety_status.isSome) ∧
     (e.safety_notes.isSome → (cache_food_merge e n).safety_notes.isSome) ∧
     (e.spoonacular_id.isSome → (cache_food_merge e n).spoonacular_id.isSome) ∧
     (e.fdc_id.isSome → (cache_food_merge e n).fdc_id.isSome)) ∧
    (n.brand = none → (cache_food_merge e n).brand = e.brand) ∧
    (∀ ev nv, e.ingredients = some ev → n.ingredients = some nv →
      ∃ l, (cache_food_merge e n).ingredients = some l ∧ l.Nodup ∧
        ∀ x, x ∈ l ↔ (x ∈ ev ∨ x ∈ nv)) ∧
    (∀ ev nv, e.allergens = some ev → n.allergens = some nv →
      ∃ l, (cache_food_merge e n).allergens = some l ∧ l.Nodup ∧
        ∀ x, x ∈ l ↔ (x ∈ ev ∨ x ∈ nv)) ∧
    (∀ ev nv, e.micronutrients = some ev → n.micronutrients = some nv →
      ∃ m, (cache_food_merge e n).micronutrients = some m ∧
        (∀ k v, nv.lookup k = some v → m.lookup k = some v) ∧
        (∀ k, nv.lookup k = none → m.lookup k = ev.lookup k)) ∧
    (∀ i, e.spoonacular_id = none → n.spoonacular_id = some i →
      (cache_food_merge e n).spoonacular_id = some i) ∧
    (∀ i, e.fdc_id = none → n.fdc_id = some i →
      (cache_food_merge e n).fdc_id = some i) := by
  refine ⟨⟨fun h => mergeScalar_isSome _ h, fun h => mergeScalar_isSome _ h,
    fun h => mergeScalar_isSome _ h, fun h => mergeScalar_isSome _ h,
    fun h => mergeScalar_isSome _ h, fun h => mergeScalar_isSome _ h,
    fun h => mergeScalar_isSome _ h, fun h => mergeScalar_isSome _ h,
    fun h => mergeScalar_isSome _ h, fun h => mergeScalar_isSome _ h,
    fun h => mergeScalar_isSome _ h, fun h => mergeScalar_isSome _ h,
    fun h => mergeScalar_isSome _ h, fun h => mergeMicro_isSome _ h,
    fun h => mergeListField_isSome _ h, fun h => mergeListField_isSome _ h,
    fun h => mergeSafety_isSome _ h, fun h => mergeSafety_isSome _ h,
    fun h => mergeScalar_isSome _ h, fun h => mergeScalar_isSome _ h⟩,
    ?_, ?_, ?_, ?_, ?_, ?_⟩
  · intro hb
    show mergeScalar e.brand n.brand = e.brand
    rw [hb]
    cases e.brand <;> rfl
  · intro ev nv he hn
    refine ⟨(ev ++ nv).dedup, ?_, List.nodup_dedup _, fun x => by
      simp [List.mem_dedup, List.mem_append]⟩
    show mergeListField e.ingredients n.ingredients = _
    rw [he, hn]
    rfl
  · intro ev nv he hn
    refine ⟨(ev ++ nv).dedup, ?_, List.nodup_dedup _, fun x => by
      simp [List.mem_dedup, List.mem_append]⟩
    show mergeListField e.allergens n.allergens = _
    rw [he, hn]
    rfl
  · intro ev nv he hn
    refine ⟨pyDictUpdate ev nv, ?_, ?_, ?_⟩
    · show mergeMicro e.micronutrients n.micronutrients = _
      rw [he, hn]
      rfl
    · intro k v hv
      rw [pyDictUpdate_lookup ev nv k, hv]
    · intro k hk
      rw [pyDictUpdate_lookup ev nv k, hk]
  · intro i he hn
    show mergeScalar e.spoonacular_id n.spoonacular_id = some i
    rw [he, hn]
    rfl
  · intro i he hn
    show mergeScalar e.fdc_id n.fdc_id = some i
    rw [he, hn]
    rfl

/-- A concrete existing record for the C4 witness: brand "Acme", one
ingredient, micronutrients iron/zinc, no Spoonacular id. -/
def existingRec : FoodRec :=
  { name := some "oat bar", brand := some "Acme", description := none,
    category := none, serving_size := some 50, serving_unit := some "g",
    calories := some 200, protein := some 5, carbs := some 30,
    fat := some 7, fiber := some 3, sugar := some 10, sodium := some 90,
    micronutrients := some [("iron", MicroVal.mk 1 "mg" none),
      ("zinc", MicroVal.mk 2 "mg" none)],
    ingredients := some ["oats", "sugar"], allergens := some ["wheat"],
    safety_status := some "safe", safety_notes := some "ok",
    spoonacular_id := none, fdc_id := some "f1" }

/-- A concrete freshly fetched record for the C4 witness: null brand, a
Spoonacular id, overlapping ingredient list, iron remeasured. -/
def newRec : FoodRec :=
  { name := some "oat bar", brand := none, description := none,
    category := none, serving_size := some 50, serving_unit := some "g",
    calories := some 210, protein := some 5, carbs := some 30,
    fat := some 7, fiber := some 3, sugar := some 10, sodium := some 90,
    micronutrients := some [("iron", MicroVal.mk 9 "mg" none)],
    ingredients := some ["sugar", "salt"], allergens := none,
    safety_status := some "safe", safety_notes := some "ok",
    spoonacular_id := some "sp9", fdc_id := none }

/-- Witness for C4: merging `newRec` (brand null, spoonacular id "sp9",
iron remeasured to 9) into `existingRec` keeps brand "Acme", backfills the
Spoonacular id, lets the new iron value win while preserving zinc, and the
merged ingredient list is the duplicate-free union. -/
theorem merge_food_data_policy_witness :
    (cache_food_merge existingRec newRec).brand = some "Acme" ∧
    (cache_food_merge existingRec newRec).spoonacular_id = some "sp9" ∧
    (∃ m, (cache_food_merge existingRec newRec).micronutrients = some m ∧
      m.lookup "iron" = some (MicroVal.mk 9 "mg" none) ∧
      m.lookup "zinc" = some (MicroVal.mk 2 "mg" none)) ∧
    (∃ l, (cache_food_merge existingRec newRec).ingredients = some l ∧
      l.Nodup ∧ ("oats" ∈ l ∧ "sugar" ∈ l ∧ "salt" ∈ l)) := by
  have h := merge_food_data_policy existingRec newRec
  refine ⟨by rw [h.2.1 rfl]; rfl, h.2.2.2.2.2.1 "sp9" rfl rfl, ?_, ?_⟩
  · obtain ⟨m, hm, hwin, hpres⟩ := h.2.2.2.2.1
      [("iron", MicroVal.mk 1 "mg" none), ("zinc", MicroVal.mk 2 "mg" none)]
      [("iron", MicroVal.mk 9 "mg" none)] rfl rfl
    exact ⟨m, hm, hwin "iron" (MicroVal.mk 9 "mg" none) rfl,
      (hpres "zinc" rfl).trans rfl⟩
  · obtain ⟨l, hl, hnd, hmem⟩ := h.2.2.1 ["oats", "sugar"] ["sugar", "salt"] rfl rfl
    exact ⟨l, hl, hnd, (hmem "oats").mpr (Or.inl (by simp)),
      (hmem "sugar").mpr (Or.inl (by simp)), (hmem "salt").mpr (Or.inr (by simp))⟩

end Backend.CacheMerge

/-!
## Cache validity (`cache_service.py`, `is_cache_valid`)

Datetimes are integer seconds; `cache_ttl` stores hours as in
`CacheService.__init__`; `timedelta(hours=ttl)` is `ttl * 3600` seconds.
-/

namespace Backend.CacheValidity

/-- `self.cache_ttl` (hours): 1 week Spoonacular, 1 month USDA, 3 days local. -/
def cache_ttl : List (String × ℤ) :=
  [("spoonacular", 24 * 7), ("usda", 24 * 30), ("local", 24 * 3)]

/-- `is_cache_valid(food)` at time `now`: false without `updated_at`;
otherwise `now < updated_at + timedelta(hours=ttl)` where the TTL is looked
up by `food.source or "local"` with the local TTL as dict default. -/
def is_cache_valid (now : ℤ) (updated_at : Option ℤ) (source : Option String) : Bool :=
  match updated_at with
  | none => false
  | some t =>
    let src := source.getD "local"
    let ttl_hours := (cache_ttl.lookup src).getD (24 * 3)
    decide (now < t + ttl_hours * 3600)

/-- TTL in seconds as the specification words it: grocery source 7 days,
government source 30 days, local 3 days, unknown source falls back to the
local TTL. -/
def ttlSecondsSpec (source : Option String) : ℤ :=
  match source with
  | none => 3 * 86400
  | some s =>
    if s = "spoonacular" then 7 * 86400
    else if s = "usda" then 30 * 86400
    else if s = "local" then 3 * 86400
    else 3 * 86400

lemma ttl_eq (source : Option String) :
    (((cache_ttl.lookup (source.getD "local")).getD (24 * 3)) * 3600 : ℤ) =
      ttlSecondsSpec source := by
  cases source with
  | none => decide
  | some s =>
    by_cases h1 : s = "spoonacular"
    · subst h1
      decide
    · by_cases h2 : s = "usda"
      · subst h2
        decide
      · by_cases h3 : s = "local"
        · subst h3
          decide
        · have b1 : (s == "spoonacular") = false := beq_eq_false_iff_ne.mpr h1
          have b2 : (s == "usda") = false := beq_eq_false_iff_ne.mpr h2
          have b3 : (s == "local") = false := beq_eq_false_iff_ne.mpr h3
          simp only [cache_ttl, List.lookup, b1, b2, b3, Option.getD,
            ttlSecondsSpec, if_neg h1, if_neg h2, if_neg h3]
          decide

/-- C8: a cached record with a last-updated time is valid exactly when the
current time is strictly before last-updated plus the per-source TTL
(7 days grocery, 30 days government, 3 days local, local for unknown
sources); a grocery record updated 7 days and 1 second ago is invalid while
one updated 6 days 23 hours ago is valid; a record without a last-updated
time is never valid. -/
theorem cache_validity_ttl (now t : ℤ) (source : Option String) :
    (is_cache_valid now (some t) source = true ↔
      now < t + ttlSecondsSpec source) ∧
    is_cache_valid now none source = false ∧
    is_cache_valid (t + (7 * 86400 + 1)) (some t) (some "spoonacular") = false ∧
    is_cache_valid (t + (6 * 86400 + 23 * 3600)) (some t) (some "spoonacular") = true := by
  have hgen : ∀ (now' : ℤ) (src : Option String),
      is_cache_valid now' (some t) src = true ↔ now' < t + ttlSecondsSpec src := by
    intro now' src
    simp only [is_cache_valid]
    rw [ttl_eq]
    exact decide_eq_true_iff
  refine ⟨hgen now source, rfl, ?_, ?_⟩
  · refine Bool.eq_false_iff.mpr (fun hb => ?_)
    have h1 := (hgen _ (some "spoonacular")).mp hb
    norm_num [ttlSecondsSpec] at h1
  · refine (hgen _ (some "spoonacular")).mpr ?_
    norm_num [ttlSecondsSpec]

/-- Witness for C8: at epoch offset 0, a grocery record is still valid one
second before the 7-day boundary. -/
theorem cache_validity_ttl_witness :
    is_cache_valid (7 * 86400 - 1) (some 0) (some "spoonacular") = true ∧
    is_cache_valid (7 * 86400) (some 0) (some "spoonacular") = false := by
  constructor
  · exact (cache_validity_ttl (7 * 86400 - 1) 0 (some "spoonacular")).1.mpr
      (by norm_num [ttlSecondsSpec])
  · refine Bool.eq_false_iff.mpr (fun hb => ?_)
    have h1 := (cache_validity_ttl (7 * 86400) 0 (some "spoonacular")).1.mp hb
    norm_num [ttlSecondsSpec] at h1

end Backend.CacheValidity

/-!
## Query classifier and classify-and-search (`spoonacular_service.py`)

The two Spoonacular searches are external HTTP calls; `classify_and_search`
is therefore parameterised by the result lists those calls would return
(`productResults` for the products search, `ingredientResults` for the
ingredients search). Result items are abstracted to ids.
-/

namespace Backend.QueryClassifier

open Backend

/-- `product_indicators` from `_classify_as_product`. -/
def product_indicators : List String :=
  ["kraft", "nestle", "kellogg", "general mills", "pepsi", "coca cola", "frito lay",
   "campbell", "heinz", "oreo", "cheerios", "doritos", "lay\x27s", "pringles",
   "cereal", "crackers", "chips", "cookies", "frozen", "canned", "bottled",
   "packaged", "instant", "mix", "sauce", "dressing", "snack", "bar",
   "yogurt", "cheese", "bread", "pasta", "pizza", "soup", "juice",
   "whole wheat", "low fat", "organic", "gluten free", "sugar free"]

/-- `ingredient_indicators` from `_classify_as_product`. -/
def ingredient_indicators : List String :=
  ["fresh", "raw", "ground", "chopped", "diced", "sliced", "whole",
   "apple", "banana", "carrot", "onion", "garlic", "tomato", "potato",
   "chicken", "beef", "pork", "fish", "salmon", "tuna",
   "flour", "sugar", "salt", "pepper", "oil", "butter", "egg",
   "rice", "beans", "lentils", "quinoa", "oats"]

/-- `_classify_as_product(query)`: keyword scoring plus the long-query and
digit heuristics; product iff `product_score > ingredient_score`. -/
def classify_as_product (query : String) : Bool :=
  let query_lower := pyStrip (pyLower query)
  let product_score :=
    (product_indicators.filter (fun ind => pySubstr ind query_lower)).length
  let ingredient_score :=
    (ingredient_indicators.filter (fun ind => pySubstr ind query_lower)).length
  let product_score := product_score + (if 3 < countWords query then 1 else 0)
  let product_score := product_score + (if hasDigit query then 1 else 0)
  decide (ingredient_score < product_score)

/-- `basic_ingredients` from `_is_basic_ingredient`. -/
def basic_ingredients : List String :=
  ["apple", "banana", "carrot", "onion", "garlic", "tomato", "potato",
   "chicken", "beef", "pork", "fish", "salmon", "tuna", "egg", "eggs",
   "flour", "sugar", "salt", "pepper", "oil", "butter",
   "rice", "beans", "lentils", "quinoa", "oats", "milk",
   "orange", "lemon", "lime", "strawberry", "blueberry", "grape",
   "lettuce", "spinach", "broccoli", "cauliflower", "cucumber",
   "cheese", "yogurt", "bread", "pasta"]

/-- `_is_basic_ingredient(query)`: exact or singular/plural variant match
against the allowlist. -/
def is_basic_ingredient (query : String) : Bool :=
  let query_lower := pyStrip (pyLower query)
  basic_ingredients.any (fun ing =>
    query_lower == ing || query_lower == ing ++ "s" || query_lower ++ "s" == ing)

/-- Result of `classify_and_search`: the "type" field, the "results" list
and the "fallback_attempted" flag. -/
structure ClassifiedSearch where
  rtype : String
  results : List Nat
  fallback_attempted : Bool
deriving DecidableEq

/-- `classify_and_search(query)` given the two searches' results. -/
def classify_and_search (query : String)
    (productResults ingredientResults : List Nat) : ClassifiedSearch :=
  if classify_as_product query then
    if productResults ≠ [] then
      ⟨"product", productResults, false⟩
    else
      ⟨"ingredient", ingredientResults, true⟩
  else
    if ingredientResults ≠ [] then
      ⟨"ingredient", ingredientResults, false⟩
    else if is_basic_ingredient query then
      ⟨"ingredient", [], false⟩
    else
      ⟨"product", productResults, true⟩

/-- Counterexample to C6: "cheese" is on the basic-ingredient allowlist,
yet the keyword scorer classifies it as a product ("cheese" is a product
indicator), and when the product search has results `classify_and_search`
returns type "product" — the allowlist override is never consulted on the
product branch. -/
theorem basic_ingredient_override_counterexample :
    is_basic_ingredient "cheese" = true ∧
    classify_as_product "cheese" = true ∧
    (classify_and_search "cheese" [1] [1]).rtype = "product" := by
  refine ⟨by decide, by decide, ?_⟩
  have h : classify_as_product "cheese" = true := by decide
  simp [classify_and_search, h]

/-- C6 (amended): an allowlist query that the keyword scorer does NOT
classify as a product is always classified "ingredient" — whether or not
the ingredient search has results, the product fallback never engages. -/
theorem basic_ingredient_keeps_ingredient_classification (q : String)
    (pr ir : List Nat) (h1 : classify_as_product q = false)
    (h2 : is_basic_ingredient q = true) :
    (classify_and_search q pr ir).rtype = "ingredient" := by
  by_cases hir : ir = []
  · simp [classify_and_search, h1, h2, hir]
  · simp [classify_and_search, h1, hir]

/-- Witness for amended C6: "banana" scores as a non-product and is on the
allowlist; even with empty ingredient results and non-empty product
results it is classified "ingredient". -/
theorem basic_ingredient_keeps_ingredient_classification_witness :
    classify_as_product "banana" = false ∧ is_basic_ingredient "banana" = true ∧
    (classify_and_search "banana" ([7]) ([])).rtype = "ingredient" :=
  ⟨by decide, by decide,
    basic_ingredient_keeps_ingredient_classification "banana" [7] []
      (by decide) (by decide)⟩

end Backend.QueryClassifier

/-!
## Food resolution pipeline (`unified_food_service.py`)

`fetch_food_or_ingredient` is modelled with its I/O parameterised: the
cache lookup result, the two Spoonacular search results, whether the
nutrition-detail fetch succeeds, and the USDA search results. The model
returns the provenance of the resolved record (`food.source`: "cache" for
a cache hit, "spoonacular" from `_create_and_cache_food` /
`from_spoonacular_product_data`, "usda" from `from_usda_data`) together
with the ordered list of external sources queried.
-/

namespace Backend.UnifiedFood

open Backend.QueryClassifier

inductive Call
  | spoonacularSearch
  | usdaSearch
deriving DecidableEq

/-- `fetch_food_or_ingredient(query)`: cache check, then
`classify_and_search` against Spoonacular, then the nutrition fetch, with
`_try_usda_fallback` when Spoonacular yields nothing or a later step
fails. Returns (provenance of the resolved record, external calls in
order). -/
def fetch_food_or_ingredient (cached : Option Unit) (force_refresh : Bool)
    (query : String) (productResults ingredientResults : List Nat)
    (nutritionOk : Bool) (usdaResults : List Nat) : Option String × List Call :=
  if ¬force_refresh ∧ cached.isSome then
    (some "cache", [])
  else
    let sr := classify_and_search query productResults ingredientResults
    if sr.results = [] then
      ((if usdaResults ≠ [] then some "usda" else none),
        [Call.spoonacularSearch, Call.usdaSearch])
    else if nutritionOk then
      (some "spoonacular", [Call.spoonacularSearch])
    else
      ((if usdaResults ≠ [] then some "usda" else none),
        [Call.spoonacularSearch, Call.usdaSearch])

/-- Counterexample to C7: the query "banana" is classified "ingredient",
misses the cache, and both sources have results — yet the resolved record's
provenance is the grocery source ("spoonacular"), not the government source
("usda"), and the grocery source is queried first. -/
theorem ingredient_prefers_usda_counterexample :
    (classify_and_search "banana" [] [1]).rtype = "ingredient" ∧
    (fetch_food_or_ingredient none false "banana" [] [1] true [2]).1 =
      some "spoonacular" ∧
    (fetch_food_or_ingredient none false "banana" [] [1] true [2]).1 ≠
      some "usda" ∧
    (fetch_food_or_ingredient none false "banana" [] [1] true [2]).2 =
      [Call.spoonacularSearch] := by
  have hb : classify_as_product "banana" = false := by decide
  refine ⟨by simp [classify_and_search, hb], ?_, ?_, ?_⟩ <;>
    simp [fetch_food_or_ingredient, classify_and_search, hb]

/-- C7 (amended): on a cache miss the grocery source (Spoonacular) is
always queried first, regardless of classification; the government source
(USDA) is queried only when Spoonacular returns no results or the
nutrition fetch fails, and only then can the provenance be "usda". -/
theorem pipeline_queries_grocery_first (cached : Option Unit) (force : Bool)
    (q : String) (pr ir : List Nat) (nok : Bool) (ur : List Nat)
    (hmiss : force = true ∨ cached = none) :
    (fetch_food_or_ingredient cached force q pr ir nok ur).2.head? =
      some Call.spoonacularSearch ∧
    ((classify_and_search q pr ir).results ≠ [] → nok = true →
      (fetch_food_or_ingredient cached force q pr ir nok ur).1 =
        some "spoonacular") ∧
    ((classify_and_search q pr ir).results = [] → ur ≠ [] →
      (fetch_food_or_ingredient cached force q pr ir nok ur).1 = some "usda") := by
  rcases hmiss with h | h <;> subst h <;>
  · by_cases hsr : (classify_and_search q pr ir).results = []
    · exact ⟨by simp [fetch_food_or_ingredient, hsr],
        fun hc _ => absurd hsr hc,
        fun _ hur => by simp [fetch_food_or_ingredient, hsr, hur]⟩
    · cases nok with
      | true =>
        exact ⟨by simp [fetch_food_or_ingredient, hsr],
          fun _ _ => by simp [fetch_food_or_ingredient, hsr],
          fun hc => absurd hc hsr⟩
      | false =>
        exact ⟨by simp [fetch_food_or_ingredient, hsr],
          fun _ hc => absurd hc Bool.false_ne_true,
          fun hc => absurd hc hsr⟩

/-- Witness for amended C7: force-refresh off, empty cache, "banana" with
ingredient results present and the nutrition fetch succeeding resolves from
Spoonacular with Spoonacular queried first; with no Spoonacular results at
all, USDA resolves it. -/
theorem pipeline_queries_grocery_first_witness :
    (fetch_food_or_ingredient none false "banana" [] [1] true [2]).2.head? =
      some Call.spoonacularSearch ∧
    (fetch_food_or_ingredient none false "banana" [] [1] true [2]).1 =
      some "spoonacular" ∧
    (fetch_food_or_ingredient none false "banana" [] [] true [2]).1 =
      some "usda" := by
  have h1 := pipeline_queries_grocery_first none false "banana" [] [1] true [2]
    (Or.inr rfl)
  have h2 := pipeline_queries_grocery_first none false "banana" [] [] true [2]
    (Or.inr rfl)
  have hb : classify_as_product "banana" = false := by decide
  refine ⟨h1.1, h1.2.1 ?_ rfl, h2.2.2 ?_ (by simp)⟩
  · simp [classify_and_search, hb]
  · simp [classify_and_search, hb, is_basic_ingredient]
    decide

end Backend.UnifiedFood

/-!
## Retry handler and rate-limited client (`rate_limiter.py`)

`retry_with_backoff` retries on `(httpx.HTTPStatusError, httpx.RequestError)`
and re-raises anything else. `_make_request` raises `HTTPStatusError` for a
429 response and, via `raise_for_status()`, for every other error status.
An execution is modelled by the outcome of each attempt index; the model
returns the final result paired with the number of attempts actually made
(the sleeping/backoff delays do not affect either).
-/

namespace Backend.Retry

/-- Exceptions reaching the retry loop. -/
inductive ReqError
  | httpStatus (code : Nat)
  | requestError
  | other
deriving DecidableEq

/-- Membership in the `retry_on` tuple
`(httpx.HTTPStatusError, httpx.RequestError)`. -/
def retryOn : ReqError → Bool
  | .httpStatus _ => true
  | .requestError => true
  | .other => false

/-- `RetryHandler.max_retries` default. -/
def max_retries_default : Nat := 1

/-- What `_make_request`'s inner `_request` produces for a response with
the given HTTP status: 429 and every `raise_for_status` error status raise
`HTTPStatusError`; otherwise the response is returned. -/
def responseOutcome (status : Nat) : Except ReqError Nat :=
  if status = 429 then .error (.httpStatus 429)
  else if 400 ≤ status then .error (.httpStatus status)
  else .ok status

/-- The retry loop of `retry_with_backoff`: `n` is the number of retries
still allowed, `i` the current attempt index. On the last allowed attempt
any exception is re-raised; before that, exceptions in `retry_on` cause
another attempt and any other exception is re-raised immediately. -/
def retryAux {α : Type} (outcomes : Nat → Except ReqError α) :
    Nat → Nat → Except ReqError α × Nat
  | 0, i =>
    match outcomes i with
    | .ok v => (.ok v, i + 1)
    | .error e => (.error e, i + 1)
  | n + 1, i =>
    match outcomes i with
    | .ok v => (.ok v, i + 1)
    | .error e =>
      if retryOn e then retryAux outcomes n (i + 1) else (.error e, i + 1)

/-- `retry_with_backoff(func, max_retries)`: result and attempts made. -/
def retry_with_backoff {α : Type} (outcomes : Nat → Except ReqError α)
    (max_retries : Nat) : Except ReqError α × Nat :=
  retryAux outcomes max_retries 0

/-- Counterexample to C9: a request that fails with HTTP 404 — a 4xx other
than 429 — raises `HTTPStatusError`, which IS in the retry tuple, so with
the default max_retries = 1 the request is attempted twice, not raised
after the first attempt. -/
theorem non_429_4xx_retried_counterexample :
    retryOn (ReqError.httpStatus 404) = true ∧
    (retry_with_backoff (fun _ => responseOutcome 404) max_retries_default).2 = 2 ∧
    (retry_with_backoff (fun _ => responseOutcome 404) max_retries_default).1 =
      .error (.httpStatus 404) := by
  refine ⟨rfl, rfl, rfl⟩

lemma retryAux_all_retryable {α : Type} (outcomes : Nat → Except ReqError α) :
    ∀ (n i : Nat),
      (∀ j, j ≤ n → ∃ e, outcomes (i + j) = .error e ∧ retryOn e = true) →
      ∃ e, outcomes (i + n) = .error e ∧
        retryAux outcomes n i = (.error e, i + n + 1) := by
  intro n
  induction n with
  | zero =>
    intro i h
    obtain ⟨e, he, hr⟩ := h 0 (Nat.le_refl 0)
    rw [Nat.add_zero] at he
    exact ⟨e, by rw [Nat.add_zero]; exact he, by simp [retryAux, he]⟩
  | succ n ih =>
    intro i h
    obtain ⟨e0, he0, hr0⟩ := h 0 (Nat.zero_le _)
    rw [Nat.add_zero] at he0
    obtain ⟨e, he, hrec⟩ := ih (i + 1) (fun j hj => by
      have := h (j + 1) (Nat.succ_le_succ hj)
      rwa [show i + (j + 1) = i + 1 + j by omega] at this)
    refine ⟨e, ?_, ?_⟩
    · rwa [show i + (n + 1) = i + 1 + n by omega]
    · simp only [retryAux, he0, hr0, if_pos rfl]
      rw [hrec]
      refine Prod.ext rfl ?_
      simp
      omega

/-- C9 (amended): through the rate-limited client every
`httpx.HTTPStatusError` — raised for 429 and for every other 4xx/5xx status
by `raise_for_status` — and every `httpx.RequestError` is retried, up to
`max_retries` additional attempts (default 1), before the last error is
re-raised; an exception outside those classes raises after the first
attempt; a first-attempt success makes exactly one attempt. -/
theorem retry_policy {α : Type} (outcomes : Nat → Except ReqError α) (m : Nat) :
    (∀ c, retryOn (ReqError.httpStatus c) = true) ∧
    retryOn ReqError.requestError = true ∧
    retryOn ReqError.other = false ∧
    (∀ e, outcomes 0 = .error e → retryOn e = false →
      retry_with_backoff outcomes m = (.error e, 1)) ∧
    (∀ v, outcomes 0 = .ok v → retry_with_backoff outcomes m = (.ok v, 1)) ∧
    ((∀ j, j ≤ m → ∃ e, outcomes j = .error e ∧ retryOn e = true) →
      ∃ e, outcomes m = .error e ∧
        retry_with_backoff outcomes m = (.error e, m + 1)) := by
  refine ⟨fun c => rfl, rfl, rfl, ?_, ?_, ?_⟩
  · intro e he hr
    cases m with
    | zero => simp [retry_with_backoff, retryAux, he]
    | succ n => simp [retry_with_backoff, retryAux, he, hr]
  · intro v hv
    cases m with
    | zero => simp [retry_with_backoff, retryAux, hv]
    | succ n => simp [retry_with_backoff, retryAux, hv]
  · intro h
    have := retryAux_all_retryable outcomes m 0 (fun j hj => by
      simpa using h j hj)
    simpa [retry_with_backoff] using this

/-- Witness for amended C9: a permanently-429 endpoint with the default
max_retries = 1 is attempted twice and then the 429 error is re-raised. -/
theorem retry_policy_witness :
    retry_with_backoff (fun _ => responseOutcome 429) max_retries_default =
      (.error (.httpStatus 429), 2) := by
  obtain ⟨e, he, hr⟩ := (retry_policy (fun _ => responseOutcome 429)
    max_retries_default).2.2.2.2.2
    (fun j _ => ⟨.httpStatus 429, rfl, rfl⟩)
  have hee : ReqError.httpStatus 429 = e := by
    have : (Except.error (ReqError.httpStatus 429) : Except ReqError Nat) =
        .error e := he
    exact Except.error.inj this
  rw [← hee] at hr
  exact hr

end Backend.Retry

/-!
## Daily and weekly nutrition aggregates
(`api/food/nutrition.py::get_nutrition_summary`,
 `api/food/logging.py::get_weekly_summary`)

Timestamps are reduced to the UTC calendar day number
(`func.date(consumed_at)`); the aggregate is modelled on calories and
protein, representative of the fixed nutrient set. The daily endpoint
joins `FoodLog` against the `Food` table (an inner join on `food_id`) and
then sums only the frozen per-log snapshot columns (`calories_logged`,
`nutrients_logged`). The weekly endpoint is broken at every input: see
`get_weekly_summary` below.
-/

namespace Backend.NutritionSummary

/-- The mutable payload of a `Food` row (joined by id, representative
column `calories`); the daily loop never reads it. -/
structure FoodSnap where
  calories : ℚ
deriving DecidableEq

/-- A `FoodLog` row: owner, referenced food id, UTC day of `consumed_at`,
soft-delete timestamp and the frozen snapshot columns. `FoodLog` defines
no `food` relationship attribute (it is commented out in the model). -/
structure LogRow where
  user_id : ℕ
  food_id : ℕ
  consumed_date : ℕ
  deleted_at : Option ℕ
  calories_logged : ℚ
  nutrients_logged : Option (List (String × ℚ))

/-- The aggregate fields modelled from `DailyNutrition`. -/
structure DailyNutrition where
  date : ℕ
  total_calories : ℚ
  protein_g : ℚ
deriving DecidableEq

/-- The daily endpoint's query: inner `join(Food, FoodLog.food_id ==
Food.id)`, then the user's rows, not soft-deleted,
`func.date(consumed_at) == filter_date`. The `Food` table is an
association list keyed by `Food.id`. -/
def logsForDate (foods : List (ℕ × FoodSnap)) (logs : List LogRow)
    (uid d : ℕ) : List LogRow :=
  logs.filter (fun l => (foods.lookup l.food_id).isSome &&
    l.user_id == uid && l.deleted_at.isNone && l.consumed_date == d)

/-- The protein contribution the daily loop reads from a log's frozen
snapshot (`if log.nutrients_logged: ... .get('protein', 0.0)`). -/
def proteinLogged (l : LogRow) : ℚ :=
  match l.nutrients_logged with
  | some m => if m.isEmpty then 0 else (m.lookup "protein").getD 0
  | none => 0

/-- One iteration of the daily loop: add the frozen snapshot values. -/
def addLogged (acc : DailyNutrition) (l : LogRow) : DailyNutrition :=
  { acc with
    total_calories := acc.total_calories + l.calories_logged,
    protein_g := acc.protein_g + proteinLogged l }

/-- `get_nutrition_summary(date)` for a user over the two tables. -/
def get_nutrition_summary (foods : List (ℕ × FoodSnap)) (logs : List LogRow)
    (uid d : ℕ) : DailyNutrition :=
  (logsForDate foods logs uid d).foldl addLogged ⟨d, 0, 0⟩

/-- An unhandled Python exception escaping an endpoint. -/
inductive PyExc
  | attributeError (message : String)
deriving DecidableEq

/-- The exception `get_weekly_summary` raises while building its query. -/
def weeklyAttributeError : PyExc :=
  .attributeError "Session object has no attribute func"

/-- `get_weekly_summary(start)`. The source builds its range filter with
`db.func.date(FoodLog.consumed_at)` where `db` is the SQLAlchemy
`Session`; `Session` has no `func` attribute (the module never imports
`sqlalchemy.func`), so evaluating the filter arguments raises
`AttributeError` on every request, before any row is read — and past
that, the loop would read `log.food`, an attribute `FoodLog` does not
define. There is no surrounding try/except, so the endpoint never
returns an aggregate. -/
def get_weekly_summary (logs : List LogRow) (uid start : ℕ) :
    Except PyExc (List DailyNutrition) :=
  .error weeklyAttributeError

lemma foldl_addLogged (l : List LogRow) (init : DailyNutrition) :
    (l.foldl addLogged init).total_calories =
      init.total_calories + (l.map (fun x => x.calories_logged)).sum ∧
    (l.foldl addLogged init).protein_g =
      init.protein_g + (l.map proteinLogged).sum := by
  induction l generalizing init with
  | nil => simp
  | cons a t ih =>
    obtain ⟨h1, h2⟩ := ih (addLogged init a)
    constructor
    · rw [List.foldl_cons, h1]
      simp [addLogged, add_assoc]
    · rw [List.foldl_cons, h2]
      simp [addLogged, add_assoc]

lemma natLookup_map_value (g : FoodSnap → FoodSnap)
    (foods : List (ℕ × FoodSnap)) (k : ℕ) :
    (foods.map (fun p => (p.1, g p.2))).lookup k = (foods.lookup k).map g := by
  induction foods with
  | nil => rfl
  | cons p t ih =>
    cases hpk : (k == p.1) <;> simp [List.lookup, hpk, ih]

lemma logsForDate_map_value (g : FoodSnap → FoodSnap)
    (foods : List (ℕ × FoodSnap)) (logs : List LogRow) (uid d : ℕ) :
    logsForDate (foods.map (fun p => (p.1, g p.2))) logs uid d =
      logsForDate foods logs uid d := by
  unfold logsForDate
  refine List.filter_congr (fun l _ => ?_)
  rw [natLookup_map_value]
  cases foods.lookup l.food_id <;> rfl

/-- C5: the claim's aggregation contract is implemented by the daily
endpoint — its total is the sum of the frozen per-log snapshots over
exactly the user's non-soft-deleted, Food-joined rows on the UTC date,
soft-deleted rows contribute nothing, and mutating the Food rows' payloads
changes nothing — but the weekly endpoint can never meet it: as modelled
from the source, `get_weekly_summary` raises AttributeError on every
input instead of returning aggregates, which is a bug in the code, not a
different design. -/
theorem daily_frozen_weekly_crashes (foods : List (ℕ × FoodSnap))
    (logs : List LogRow) (uid d start : ℕ) :
    (get_nutrition_summary foods logs uid d).total_calories =
      ((logsForDate foods logs uid d).map (fun l => l.calories_logged)).sum ∧
    (get_nutrition_summary foods logs uid d).protein_g =
      ((logsForDate foods logs uid d).map proteinLogged).sum ∧
    (∀ l, l.deleted_at ≠ none →
      get_nutrition_summary foods (l :: logs) uid d =
        get_nutrition_summary foods logs uid d) ∧
    (∀ g : FoodSnap → FoodSnap,
      get_nutrition_summary (foods.map (fun p => (p.1, g p.2))) logs uid d =
        get_nutrition_summary foods logs uid d) ∧
    get_weekly_summary logs uid start = .error weeklyAttributeError := by
  refine ⟨?_, ?_, ?_, ?_, rfl⟩
  · rw [get_nutrition_summary, (foldl_addLogged (logsForDate foods logs uid d) ⟨d, 0, 0⟩).1]
    simp
  · rw [get_nutrition_summary, (foldl_addLogged (logsForDate foods logs uid d) ⟨d, 0, 0⟩).2]
    simp
  · intro l hl
    have hdel : l.deleted_at.isNone = false := by
      cases hc : l.deleted_at with
      | none => exact absurd hc hl
      | some v => rfl
    unfold get_nutrition_summary logsForDate
    simp [List.filter_cons, hdel]
  · intro g
    unfold get_nutrition_summary
    rw [logsForDate_map_value]

/-- Witness for C5: one Food row (id 42) and one log frozen at 210 kcal —
the daily total is the frozen 210; prepending a soft-deleted log changes
nothing; rescaling every Food row's calories changes nothing; and the
weekly endpoint raises its AttributeError at this very input. -/
theorem daily_frozen_weekly_crashes_witness :
    (get_nutrition_summary [(42, FoodSnap.mk 100)]
      [LogRow.mk 1 42 10 none 210 (some [("protein", 6)])] 1 10).total_calories = 210 ∧
    get_nutrition_summary [(42, FoodSnap.mk 100)]
      [LogRow.mk 1 42 10 (some 5) 999 none,
       LogRow.mk 1 42 10 none 210 (some [("protein", 6)])] 1 10 =
      get_nutrition_summary [(42, FoodSnap.mk 100)]
        [LogRow.mk 1 42 10 none 210 (some [("protein", 6)])] 1 10 ∧
    get_nutrition_summary ([(42, FoodSnap.mk 100)].map
        (fun p => (p.1, FoodSnap.mk (2 * p.2.calories))))
      [LogRow.mk 1 42 10 none 210 (some [("protein", 6)])] 1 10 =
      get_nutrition_summary [(42, FoodSnap.mk 100)]
        [LogRow.mk 1 42 10 none 210 (some [("protein", 6)])] 1 10 ∧
    get_weekly_summary [LogRow.mk 1 42 10 none 210 (some [("protein", 6)])] 1 10 =
      .error weeklyAttributeError := by
  have h := daily_frozen_weekly_crashes [(42, FoodSnap.mk 100)]
    [LogRow.mk 1 42 10 none 210 (some [("protein", 6)])] 1 10 10
  refine ⟨?_, h.2.2.1 (LogRow.mk 1 42 10 (some 5) 999 none) (by simp),
    h.2.2.2.1 (fun s => FoodSnap.mk (2 * s.calories)), h.2.2.2.2⟩
  rw [h.1, show logsForDate [(42, FoodSnap.mk 100)]
      [LogRow.mk 1 42 10 none 210 (some [("protein", 6)])] 1 10 =
      [LogRow.mk 1 42 10 none 210 (some [("protein", 6)])] from rfl]
  norm_num

end Backend.NutritionSummary
